import Mathlib

/-!
# Verification of the S-parameter derivation pipeline

A shallow embedding of `src/file_manager.py` (class `TouchstoneFile`) and
`src/plot_engine.py` (class `PlotEngine`) of the S-Params repository, together
with proofs settling the frozen claims about the specification.

Numerical arrays are modelled as `List ℝ` / `List ℂ`; numpy primitives
(`np.gradient`, `np.unwrap`, `np.clip`, `np.angle`, negative indexing) are
embedded by their documented exact-arithmetic semantics.  Python exceptions are
modelled with `Except PyErr`.
-/

open scoped Real

noncomputable section

/-- Python/`numpy` floating-point modulus `np.mod a n = a - n * ⌊a / n⌋`
(sign follows the divisor), in exact real arithmetic. -/
def pyMod (a n : ℝ) : ℝ := a - n * ⌊a / n⌋

/-- `numpy` basic indexing of a 1-D sequence by a possibly negative index:
a negative index `i` addresses element `i + len`; anything outside
`[-len, len-1]` is an `IndexError` (modelled as `none`). -/
def npIndex {α : Type} (l : List α) (i : ℤ) : Option α :=
  if 0 ≤ i then l.get? i.toNat
  else if 0 ≤ i + l.length then l.get? (i + l.length).toNat
  else none

/-- The phase correction `np.unwrap` adds over one consecutive difference `d`
of the input sequence (default `discont = π`, `period = 2π`):
`ddmod = mod(d + π, 2π) - π`, with the boundary-ambiguous value `-π` mapped to
`π` when `d > 0`, and no correction when `|d| < π`. -/
def unwrapDelta (d : ℝ) : ℝ :=
  let ddmod0 := pyMod (d + π) (2 * π) - π
  let ddmod := if ddmod0 = -π ∧ 0 < d then π else ddmod0
  if |d| < π then 0 else ddmod - d

/-- `np.unwrap p`: element `k` is `p k` plus the cumulative sum of the
corrections for the differences before index `k`. -/
def npUnwrap (p : List ℝ) : List ℝ :=
  (List.range p.length).map (fun k =>
    p.getD k 0 + ((List.range k).map (fun m => unwrapDelta (p.getD (m + 1) 0 - p.getD m 0))).sum)

/-- One entry of `np.gradient f x` (1-D, coordinate array `x`, default
`edge_order = 1`): first-order one-sided differences at the two boundaries and
the second-order three-point centred stencil at interior points.  For uniform
spacing the interior stencil coincides, in exact arithmetic, with
`(f (k+1) - f (k-1)) / (2h)`, which is the branch numpy specialises to. -/
def gradAt (f x : List ℝ) (k : ℕ) : ℝ :=
  if k = 0 then
    (f.getD 1 0 - f.getD 0 0) / (x.getD 1 0 - x.getD 0 0)
  else if k = f.length - 1 then
    (f.getD k 0 - f.getD (k - 1) 0) / (x.getD k 0 - x.getD (k - 1) 0)
  else
    let dx1 := x.getD k 0 - x.getD (k - 1) 0
    let dx2 := x.getD (k + 1) 0 - x.getD k 0
    (-dx2 / (dx1 * (dx1 + dx2))) * f.getD (k - 1) 0
      + ((dx2 - dx1) / (dx1 * dx2)) * f.getD k 0
      + (dx1 / (dx2 * (dx1 + dx2))) * f.getD (k + 1) 0

/-- `np.gradient f x` for 1-D `f` with coordinate array `x`. -/
def npGradient (f x : List ℝ) : List ℝ :=
  (List.range f.length).map (gradAt f x)

/-- Python exceptions raised by the embedded code. -/
inductive PyErr : Type
  | valueError (msg : String)
  | indexError
  | unboundLocalError
  deriving DecidableEq

/-- Shape well-formedness of the S-parameter array: every frequency plane is a
`nports × nports` matrix (the external parser guarantees shape `(N, P, P)`,
spec §3). Stated as a `Bool` so that concrete instances can be checked by
`decide`. -/
def shapeOk (s : List (List (List ℂ))) (nports : ℕ) : Bool :=
  s.all (fun plane => plane.length = nports && plane.all (fun row => row.length = nports))

/-- The parameter-identifier string `f"S{i}{j}"` built by `load_file`
(`src/file_manager.py:39`, there with `i+1`, `j+1` already applied). -/
def paramName (i j : ℕ) : String := s!"S{i}{j}"

/-- The `s_params` list built by `TouchstoneFile.load_file`
(`src/file_manager.py:37-39`): two nested `for` loops over `range(nports)`,
appending `f"S{i+1}{j+1}"`. -/
def load_file_s_params (nports : ℕ) : List String :=
  (List.range nports).foldl
    (fun acc i => (List.range nports).foldl
      (fun acc2 j => acc2 ++ [paramName (i + 1) (j + 1)]) acc)
    []

/-- A loaded `TouchstoneFile`: the fields assigned by `__init__`/`load_file`,
plus the invariants guaranteed at load time (array shape from the external
parser, `s_params` from `load_file`). -/
structure TouchstoneFile : Type where
  filename : String
  freq : List ℝ
  nports : ℕ
  s : List (List (List ℂ))
  s_params : List String
  h_nplanes : s.length = freq.length
  h_shape : shapeOk s nports = true
  h_params : s_params = load_file_s_params nports

/-- `int(param_name[1]) - 1` : the row index parsed by `get_s_parameter`
(`src/file_manager.py:58`).  `param_name` is a member of `s_params`, so the
character at position 1 is always a decimal digit and Python's `int` returns
its value; out-of-range positions cannot occur (every identifier has length
≥ 3) so the `getD` default is never used. -/
def rowIdx (p : String) : ℤ := ((p.toList.getD 1 'S').toNat : ℤ) - 48 - 1

/-- `int(param_name[2]) - 1` : the column index parsed by `get_s_parameter`
(`src/file_manager.py:59`). -/
def colIdx (p : String) : ℤ := ((p.toList.getD 2 'S').toNat : ℤ) - 48 - 1

/-- `self.network.s[:, row, col]` (`src/file_manager.py:62`): extract one
complex sample per frequency plane; `none` models an `IndexError`. -/
def extractColumn : List (List (List ℂ)) → ℤ → ℤ → Option (List ℂ)
  | [], _, _ => some []
  | plane :: rest, row, col =>
    match (npIndex plane row).bind (fun r => npIndex r col), extractColumn rest row col with
    | some v, some vs => some (v :: vs)
    | _, _ => none

/-- `TouchstoneFile.get_s_parameter` (`src/file_manager.py:44-64`): membership
check against `s_params` (raising `ValueError`, the spec's
`UnknownParameterError`, with the source's message), digit parsing, and column
extraction. -/
def get_s_parameter (tf : TouchstoneFile) (p : String) : Except PyErr (List ℝ × List ℂ) :=
  if p ∈ tf.s_params then
    match extractColumn tf.s (rowIdx p) (colIdx p) with
    | some sdata => .ok (tf.freq, sdata)
    | none => .error .indexError
  else
    .error (.valueError (p ++ " not available in " ++ tf.filename))

/-- `20 * np.log10 (np.abs s)` elementwise (`src/file_manager.py:69`). -/
def magnitude_db_samples (s : List ℂ) : List ℝ :=
  s.map (fun v => 20 * Real.logb 10 (Complex.abs v))

/-- `TouchstoneFile.get_magnitude_db` (`src/file_manager.py:66-70`). -/
def get_magnitude_db (tf : TouchstoneFile) (p : String) : Except PyErr (List ℝ × List ℝ) :=
  (get_s_parameter tf p).map (fun fs => (fs.1, magnitude_db_samples fs.2))

/-- `np.abs s` elementwise (`src/file_manager.py:75`). -/
def magnitude_linear_samples (s : List ℂ) : List ℝ :=
  s.map (fun v => Complex.abs v)

/-- `TouchstoneFile.get_magnitude_linear` (`src/file_manager.py:72-76`). -/
def get_magnitude_linear (tf : TouchstoneFile) (p : String) : Except PyErr (List ℝ × List ℝ) :=
  (get_s_parameter tf p).map (fun fs => (fs.1, magnitude_linear_samples fs.2))

/-- `np.angle(s, deg=True)` elementwise (`src/file_manager.py:81`):
`atan2` (that is, `Complex.arg`) scaled to degrees. -/
def phase_deg_samples (s : List ℂ) : List ℝ :=
  s.map (fun v => Complex.arg v * (180 / π))

/-- `TouchstoneFile.get_phase_deg` (`src/file_manager.py:78-82`). -/
def get_phase_deg (tf : TouchstoneFile) (p : String) : Except PyErr (List ℝ × List ℝ) :=
  (get_s_parameter tf p).map (fun fs => (fs.1, phase_deg_samples fs.2))

/-- `np.angle(s, deg=False)` elementwise (`src/file_manager.py:87`). -/
def phase_rad_samples (s : List ℂ) : List ℝ :=
  s.map (fun v => Complex.arg v)

/-- `TouchstoneFile.get_phase_rad` (`src/file_manager.py:84-88`). -/
def get_phase_rad (tf : TouchstoneFile) (p : String) : Except PyErr (List ℝ × List ℝ) :=
  (get_s_parameter tf p).map (fun fs => (fs.1, phase_rad_samples fs.2))

/-- `TouchstoneFile.get_real_imag` (`src/file_manager.py:90-95`). -/
def get_real_imag (tf : TouchstoneFile) (p : String) :
    Except PyErr (List ℝ × List ℝ × List ℝ) :=
  (get_s_parameter tf p).map (fun fs => (fs.1, fs.2.map Complex.re, fs.2.map Complex.im))

/-- The per-sample VSWR value of `get_vswr` (`src/file_manager.py:97-110`):
`gamma = np.clip(np.abs v, 0, 0.9999)` then `(1 + gamma) / (1 - gamma)`.
`np.clip a lo hi = min (max a lo) hi`. -/
def vswrPoint (v : ℂ) : ℝ :=
  let gamma := min (max (Complex.abs v) 0) 0.9999
  (1 + gamma) / (1 - gamma)

/-- `TouchstoneFile.get_vswr` (`src/file_manager.py:97-110`), elementwise. -/
def get_vswr (tf : TouchstoneFile) (p : String) : Except PyErr (List ℝ × List ℝ) :=
  (get_s_parameter tf p).map (fun fs => (fs.1, fs.2.map vswrPoint))

/-- The body of `get_group_delay` after sample extraction
(`src/file_manager.py:117-129`): `phase = np.unwrap(np.angle(s))`,
`omega = 2 * np.pi * freq`, then `-np.gradient(phase, omega)` when the series
has more than one point and `np.zeros_like(phase)` otherwise. -/
def group_delay_samples (freq : List ℝ) (s : List ℂ) : List ℝ :=
  let phase := npUnwrap (s.map Complex.arg)
  let omega := freq.map (fun f => 2 * π * f)
  if 1 < phase.length then (npGradient phase omega).map (fun y => -y)
  else phase.map (fun _ => 0)

/-- `TouchstoneFile.get_group_delay` (`src/file_manager.py:112-129`). -/
def get_group_delay (tf : TouchstoneFile) (p : String) : Except PyErr (List ℝ × List ℝ) :=
  (get_s_parameter tf p).map (fun fs => (fs.1, group_delay_samples fs.1 fs.2))

/-- `TouchstoneFile.get_complex_data` (`src/file_manager.py:131-134`). -/
def get_complex_data (tf : TouchstoneFile) (p : String) : Except PyErr (List ℂ) :=
  (get_s_parameter tf p).map (fun fs => fs.2)

/-! ## Plot engine (`src/plot_engine.py`) -/

/-- The `plot_config` dictionary of `PlotEngine` (`src/plot_engine.py:31-41`).
The keys set in `__init__` are never removed (`update_config` only overwrites),
so every key lookup with a default succeeds with the stored value. -/
structure PlotConfig : Type where
  title : String
  xlabel : String
  ylabel : String
  grid : Bool
  legend_loc : String
  xlim_auto : Bool
  ylim_auto : Bool
  xlim : Option ℝ × Option ℝ
  ylim : Option ℝ × Option ℝ

/-- The default configuration assigned in `PlotEngine.__init__`. -/
def defaultConfig : PlotConfig :=
  { title := "S-Parameter Plot", xlabel := "Frequency (GHz)", ylabel := "Magnitude (dB)",
    grid := true, legend_loc := "best", xlim_auto := true, ylim_auto := true,
    xlim := (none, none), ylim := (none, none) }

/-- A trace dictionary as consumed by `PlotEngine.plot`
(`src/plot_engine.py:48-58`). -/
structure Trace : Type where
  touchstone_file : TouchstoneFile
  param_name : String
  legend_name : String
  color : Option String

/-- One `ax.plot` call: the x data, the y data and the legend label. -/
structure Curve : Type where
  xs : List ℝ
  ys : List ℝ
  label : String

/-- A matplotlib patch attached to the axes via `add_patch` / `add_artist`. -/
inductive Patch : Type
  | circle (cx cy radius : ℝ)

/-- The observable state of the rendered figure: texts placed with `ax.text`,
curves from `ax.plot` in drawing order, patches attached to the axes, the grid
flag, and the title. -/
structure FigureState : Type where
  texts : List String
  curves : List Curve
  patches : List Patch
  gridOn : Bool
  title : String

/-- The calculator dispatch of `_plot_standard` (`src/plot_engine.py:90-109`):
for each recognised plot type, the getter invoked and the `ylabel` string
assigned after it returns; `none` models the `else: continue` branch. -/
def standardCalc (plot_type : String) (tf : TouchstoneFile) (p : String) :
    Option (Except PyErr (List ℝ × List ℝ) × String) :=
  if plot_type = "Magnitude (dB)" then some (get_magnitude_db tf p, "Magnitude (dB)")
  else if plot_type = "Magnitude (Linear)" then some (get_magnitude_linear tf p, "Magnitude")
  else if plot_type = "Phase (Degrees)" then some (get_phase_deg tf p, "Phase (Degrees)")
  else if plot_type = "Phase (Radians)" then some (get_phase_rad tf p, "Phase (Radians)")
  else if plot_type = "VSWR" then some (get_vswr tf p, "VSWR")
  else if plot_type = "Group Delay" then some (get_group_delay tf p, "Group Delay (s)")
  else none

/-- `PlotEngine._plot_standard` (`src/plot_engine.py:79-142`).  The fold state
is the curve list together with the local variable `ylabel` (`none` while it is
still unassigned).  Per trace: an unrecognised plot type hits `continue`
without touching `ylabel`; a calculator failure is caught by the
`try/except` and the trace skipped; on success the curve
`(freq / 1e9, data)` is drawn and `ylabel` is assigned.  After the loop the
code evaluates `self.plot_config.get('ylabel', ylabel)` (line 125): if no
trace ever assigned `ylabel`, evaluating the default argument raises
`UnboundLocalError`; otherwise the lookup returns the configured value. -/
def plot_standard (cfg : PlotConfig) (plot_type : String) (traces : List Trace) :
    Except PyErr FigureState :=
  let st := traces.foldl
    (fun (acc : List Curve × Option String) tr =>
      match standardCalc plot_type tr.touchstone_file tr.param_name with
      | none => acc
      | some (.error _, _) => acc
      | some (.ok (freq, data), ylab) =>
          (acc.1 ++ [⟨freq.map (fun f => f / 1e9), data, tr.legend_name⟩], some ylab))
    ([], none)
  match st.2 with
  | none => .error .unboundLocalError
  | some _ =>
      .ok { texts := [], curves := st.1, patches := [], gridOn := cfg.grid, title := cfg.title }

/-- The `(center_x, 0, radius)` triples computed for the constant-resistance
circles in `_draw_smith_grid` (`src/plot_engine.py:194-201`).  The source
constructs `plt.Circle` objects from these values but never attaches them to
the axes (no `add_patch`/`add_artist` call), so they are dead locals. -/
def smithResistanceCircleParams : List (ℝ × ℝ × ℝ) :=
  ([0, 0.2, 0.5, 1.0, 2.0, 5.0] : List ℝ).filterMap (fun r =>
    if r = 0 then none else some (r / (1 + r), 0, 1 / (1 + r)))

/-- `PlotEngine._draw_smith_grid` (`src/plot_engine.py:191-209`): the
resistance loop builds circle objects into a discarded local, the reactance
loop computes `center_y`/`radius` into discarded locals, and the only effect
on the axes is `ax.grid(True, ...)`.  No patch is ever added. -/
def draw_smith_grid (fig : FigureState) : FigureState :=
  { fig with gridOn := true }

/-- `PlotEngine._plot_smith_chart` (`src/plot_engine.py:144-189`): draw the
(empty) grid, then per trace plot `(np.angle g, np.abs g)` and the start/end
markers; `theta[0]` on a zero-sample trace raises `IndexError`, caught by the
per-trace `try/except` after the main curve was already added. -/
def plot_smith_chart (cfg : PlotConfig) (traces : List Trace) : Except PyErr FigureState :=
  let base := draw_smith_grid
    { texts := [], curves := [], patches := [], gridOn := false, title := cfg.title }
  let fig := traces.foldl
    (fun (fig : FigureState) tr =>
      match get_complex_data tr.touchstone_file tr.param_name with
      | .error _ => fig
      | .ok sdata =>
          let theta := sdata.map Complex.arg
          let r := sdata.map Complex.abs
          let fig1 := { fig with curves := fig.curves ++ [⟨theta, r, tr.legend_name⟩] }
          if sdata.isEmpty then fig1
          else
            { fig1 with curves := fig1.curves
                ++ [⟨[theta.getD 0 0], [r.getD 0 0], tr.legend_name⟩]
                ++ [⟨[theta.getD (theta.length - 1) 0], [r.getD (r.length - 1) 0],
                     tr.legend_name⟩] })
    base
  .ok fig

/-- `PlotEngine._plot_real_imag` (`src/plot_engine.py:211-258`): per trace a
real curve and an imaginary curve, failures caught and skipped. -/
def plot_real_imag (cfg : PlotConfig) (traces : List Trace) : Except PyErr FigureState :=
  let fig := traces.foldl
    (fun (fig : FigureState) tr =>
      match get_real_imag tr.touchstone_file tr.param_name with
      | .error _ => fig
      | .ok (freq, re, im) =>
          let ghz := freq.map (fun f => f / 1e9)
          { fig with curves := fig.curves
              ++ [⟨ghz, re, tr.legend_name ++ " (Real)"⟩]
              ++ [⟨ghz, im, tr.legend_name ++ " (Imag)"⟩] })
    { texts := [], curves := [], patches := [], gridOn := cfg.grid, title := cfg.title }
  .ok fig

/-- The placeholder figure rendered by `PlotEngine.plot` when the trace list is
empty (`src/plot_engine.py:63-68`): a single `ax.text` message, no curves, no
patches, default axes. -/
def noDataFigure : FigureState :=
  { texts := ["No data to plot"], curves := [], patches := [], gridOn := false, title := "" }

/-- `PlotEngine.plot` (`src/plot_engine.py:48-77`): empty trace list renders
the placeholder and returns before any calculator dispatch; otherwise dispatch
on the plot type. -/
def PlotEngine.plot (cfg : PlotConfig) (plot_type : String) (traces : List Trace) :
    Except PyErr FigureState :=
  if traces.isEmpty then .ok noDataFigure
  else if plot_type = "Smith Chart" then plot_smith_chart cfg traces
  else if plot_type = "Real vs Imaginary" then plot_real_imag cfg traces
  else plot_standard cfg plot_type traces

/-! ## Concrete loaded files used as witnesses and counterexamples -/

/-- A 1-port network with an empty frequency list (zero samples). -/
def tfEmpty : TouchstoneFile :=
  { filename := "empty.s1p", freq := [], nports := 1, s := [],
    s_params := load_file_s_params 1,
    h_nplanes := rfl, h_shape := by decide, h_params := rfl }

/-- A 1-port network with one sample `1 + 0j` at 1 GHz. -/
def tfOne : TouchstoneFile :=
  { filename := "one.s1p", freq := [1e9], nports := 1, s := [[[1]]],
    s_params := load_file_s_params 1,
    h_nplanes := rfl, h_shape := by decide, h_params := rfl }

/-- A 2-port network with one identity-matrix sample at 1 GHz. -/
def tfTwo : TouchstoneFile :=
  { filename := "two.s2p", freq := [1e9], nports := 2,
    s := [[[1, 0], [0, 1]]],
    s_params := load_file_s_params 2,
    h_nplanes := rfl, h_shape := by decide, h_params := rfl }

/-- A 1-port network with three samples `1 + 0j` at non-uniformly spaced
frequencies, giving the group-delay gradient an interior point. -/
def tfThree : TouchstoneFile :=
  { filename := "three.s1p", freq := [1, 2, 4], nports := 1,
    s := [[[1]], [[1]], [[1]]],
    s_params := load_file_s_params 1,
    h_nplanes := rfl, h_shape := by decide, h_params := rfl }

/-- A 10-port network (zero samples): the port count at which the digit-wise
identifier parsing of `get_s_parameter` breaks down. -/
def tfTen : TouchstoneFile :=
  { filename := "ten.s10p", freq := [], nports := 10, s := [],
    s_params := load_file_s_params 10,
    h_nplanes := rfl, h_shape := by decide, h_params := rfl }

/-! ## Helper lemmas -/

theorem foldl_concat_eq_append {α β : Type} (g : α → β) (l : List α) :
    ∀ acc : List β, l.foldl (fun a x => a ++ [g x]) acc = acc ++ l.map g := by
  induction l with
  | nil => intro acc; simp
  | cons x xs ih => intro acc; simp [ih, List.append_assoc]

/-- The nested append-in-a-loop construction of `load_file_s_params` equals the
canonical row-major enumeration of identifiers. -/
theorem load_file_s_params_eq (P : ℕ) :
    load_file_s_params P =
      (List.range P).flatMap
        (fun i => (List.range P).map (fun j => paramName (i + 1) (j + 1))) := by
  have h2 : ∀ (L : List ℕ) (acc : List String),
      L.foldl
          (fun acc i =>
            (List.range P).foldl (fun a j => a ++ [paramName (i + 1) (j + 1)]) acc) acc
        = acc ++ L.flatMap (fun i => (List.range P).map (fun j => paramName (i + 1) (j + 1))) := by
    intro L
    induction L with
    | nil => intro acc; simp
    | cons x xs ih =>
        intro acc
        rw [List.foldl_cons, foldl_concat_eq_append, ih, List.flatMap_cons, List.append_assoc]
  simpa [load_file_s_params] using h2 (List.range P) []

theorem mem_load_file_s_params {P : ℕ} {p : String} :
    p ∈ load_file_s_params P ↔ ∃ i < P, ∃ j < P, p = paramName (i + 1) (j + 1) := by
  rw [load_file_s_params_eq]
  simp only [List.mem_flatMap, List.mem_map, List.mem_range]
  constructor
  · rintro ⟨i, hi, j, hj, rfl⟩
    exact ⟨i, hi, j, hj, rfl⟩
  · rintro ⟨i, hi, j, hj, rfl⟩
    exact ⟨i, hi, j, hj, rfl⟩

theorem extractColumn_length :
    ∀ {s : List (List (List ℂ))} {row col : ℤ} {r : List ℂ},
      extractColumn s row col = some r → r.length = s.length := by
  intro s
  induction s with
  | nil => intro row col r h; cases h; rfl
  | cons plane rest ih =>
      intro row col r h
      unfold extractColumn at h
      cases hv : (npIndex plane row).bind (fun rw => npIndex rw col) with
      | none => rw [hv] at h; cases h
      | some v =>
          cases hrest : extractColumn rest row col with
          | none => rw [hv, hrest] at h; cases h
          | some vs =>
              rw [hv, hrest] at h
              cases h
              simp [ih hrest]

theorem npIndex_in_range {α : Type} (l : List α) (i : ℤ)
    (h0 : 0 ≤ i) (hl : i < (l.length : ℤ)) : ∃ v, npIndex l i = some v := by
  rw [npIndex, if_pos h0]
  have hlt : i.toNat < l.length := by omega
  exact ⟨l.get ⟨i.toNat, hlt⟩, List.get?_eq_get hlt⟩

theorem shapeOk_cons {plane : List (List ℂ)} {rest : List (List (List ℂ))} {P : ℕ}
    (h : shapeOk (plane :: rest) P = true) :
    plane.length = P ∧ (∀ r ∈ plane, r.length = P) ∧ shapeOk rest P = true := by
  simp only [shapeOk, List.all_cons, Bool.and_eq_true, List.all_eq_true,
    decide_eq_true_eq] at h
  refine ⟨h.1.1, fun r hr => ?_, ?_⟩
  · exact h.1.2 r hr
  · simp only [shapeOk, List.all_eq_true, Bool.and_eq_true, decide_eq_true_eq]
    intro plane' hp'
    exact h.2 plane' hp'

theorem extractColumn_total {P : ℕ} (row col : ℤ)
    (h1 : 0 ≤ row) (h2 : row < (P : ℤ)) (h3 : 0 ≤ col) (h4 : col < (P : ℤ)) :
    ∀ (s : List (List (List ℂ))), shapeOk s P = true →
      ∃ r, extractColumn s row col = some r := by
  intro s
  induction s with
  | nil => intro _; exact ⟨[], rfl⟩
  | cons plane rest ih =>
      intro hs
      obtain ⟨hlen, hrows, hrest⟩ := shapeOk_cons hs
      obtain ⟨r0, hr0⟩ := npIndex_in_range plane row h1 (by rw [hlen]; exact h2)
      have hr0mem : r0 ∈ plane := by
        rw [npIndex, if_pos h1] at hr0
        exact List.get?_mem hr0
      obtain ⟨v, hv⟩ := npIndex_in_range r0 col h3 (by rw [hrows r0 hr0mem]; exact h4)
      obtain ⟨vs, hvs⟩ := ih hrest
      refine ⟨v :: vs, ?_⟩
      simp [extractColumn, hr0, hv, hvs]

/-- A successful `get_s_parameter` returns the stored frequency list and a
sample list of the same length. -/
theorem get_s_parameter_ok {tf : TouchstoneFile} {p : String} {f : List ℝ} {s : List ℂ}
    (h : get_s_parameter tf p = .ok (f, s)) :
    f = tf.freq ∧ s.length = tf.freq.length := by
  unfold get_s_parameter at h
  by_cases hmem : p ∈ tf.s_params
  · rw [if_pos hmem] at h
    cases hex : extractColumn tf.s (rowIdx p) (colIdx p) with
    | none => rw [hex] at h; cases h
    | some sdata =>
        rw [hex] at h
        cases h
        exact ⟨rfl, by rw [extractColumn_length hex, tf.h_nplanes]⟩
  · rw [if_neg hmem] at h
    cases h

theorem npUnwrap_length (p : List ℝ) : (npUnwrap p).length = p.length := by
  simp [npUnwrap]

theorem npGradient_length (f x : List ℝ) : (npGradient f x).length = f.length := by
  simp [npGradient]

theorem getD_map_range {α : Type} [Inhabited α] (g : ℕ → α) (n k : ℕ) (hk : k < n) (d : α) :
    (((List.range n).map g).getD k d) = g k := by
  rw [List.getD_eq_getElem?_getD, List.getElem?_map, List.getElem?_range hk]
  rfl

set_option maxRecDepth 20000 in
/-- Digit-wise index parsing on well-formed single-digit identifiers. -/
theorem rowIdx_colIdx_paramName :
    ∀ a < 10, ∀ b < 10,
      rowIdx (paramName a b) = (a : ℤ) - 1 ∧ colIdx (paramName a b) = (b : ℤ) - 1 := by
  decide

set_option maxRecDepth 100000 in
set_option synthInstance.maxSize 2000 in
set_option synthInstance.maxHeartbeats 2000000 in
/-- No generated identifier of a `P`-port network (`P ≤ 8`) carries an index
beyond `P`: the basis of the `UnknownParameterError` path. -/
theorem paramName_not_mem :
    ∀ P < 9, ∀ i < 10, ∀ j < 10,
      (P < i ∨ P < j) → paramName i j ∉ load_file_s_params P := by
  decide

/-! ## Claims -/

/-- Claim C9: for every plot kind (and configuration), rendering with an empty
trace list never raises, performs no calculator dispatch (the empty branch
returns before the per-kind dispatch), and produces the documented
`No data to plot` placeholder figure with no curves. -/
theorem C9_empty_traces_placeholder (cfg : PlotConfig) (plot_type : String) :
    PlotEngine.plot cfg plot_type [] = .ok noDataFigure ∧
    noDataFigure.texts = ["No data to plot"] ∧ noDataFigure.curves = [] :=
  ⟨rfl, rfl, rfl⟩

/-- Claim C1, counterexample: on a zero-length sample series the magnitude-dB
calculator does **not** fail with a `ComputationError` — it returns the empty
series.  No calculator in `file_manager.py` checks for zero-length input, so
the claimed "fails iff the series is empty" is false in the "if" direction. -/
theorem C1_counterexample : get_magnitude_db tfEmpty "S11" = .ok ([], []) := rfl

/-- Claim C1 (amended): a calculator never fails with `ComputationError`:
whenever sample extraction succeeds — including a zero-length series, which
yields a zero-length result rather than an error — every calculator returns
exactly the elementwise formula values, unmodified, with no clamping other
than the VSWR gamma clip. -/
theorem C1_amended_calculators_never_fail (tf : TouchstoneFile) (p : String)
    (f : List ℝ) (s : List ℂ) (h : get_s_parameter tf p = .ok (f, s)) :
    get_magnitude_db tf p = .ok (f, s.map (fun v => 20 * Real.logb 10 (Complex.abs v))) ∧
    get_magnitude_linear tf p = .ok (f, s.map (fun v => Complex.abs v)) ∧
    get_phase_deg tf p = .ok (f, s.map (fun v => Complex.arg v * (180 / π))) ∧
    get_phase_rad tf p = .ok (f, s.map (fun v => Complex.arg v)) ∧
    get_real_imag tf p = .ok (f, s.map Complex.re, s.map Complex.im) ∧
    get_vswr tf p = .ok (f, s.map (fun v =>
      (1 + min (max (Complex.abs v) 0) 0.9999)
        / (1 - min (max (Complex.abs v) 0) 0.9999))) ∧
    get_group_delay tf p = .ok (f, group_delay_samples f s) ∧
    get_complex_data tf p = .ok s := by
  refine ⟨?_, ?_, ?_, ?_, ?_, ?_, ?_, ?_⟩ <;>
    simp [get_magnitude_db, get_magnitude_linear, get_phase_deg, get_phase_rad,
      get_real_imag, get_vswr, get_group_delay, get_complex_data, h, Except.map,
      magnitude_db_samples, magnitude_linear_samples, phase_deg_samples,
      phase_rad_samples, vswrPoint]

/-- Witness for the amended claim C1, at the zero-length 1-port file. -/
theorem C1_amended_witness :
    get_s_parameter tfEmpty "S11" = .ok ([], []) ∧
    get_magnitude_db tfEmpty "S11" = .ok ([], []) ∧
    get_magnitude_linear tfEmpty "S11" = .ok ([], []) ∧
    get_phase_deg tfEmpty "S11" = .ok ([], []) ∧
    get_phase_rad tfEmpty "S11" = .ok ([], []) ∧
    get_real_imag tfEmpty "S11" = .ok ([], [], []) ∧
    get_vswr tfEmpty "S11" = .ok ([], []) ∧
    get_group_delay tfEmpty "S11" = .ok ([], []) ∧
    get_complex_data tfEmpty "S11" = .ok [] := by
  have h := C1_amended_calculators_never_fail tfEmpty "S11" [] [] rfl
  exact ⟨rfl, h.1, h.2.1, h.2.2.1, h.2.2.2.1, h.2.2.2.2.1, h.2.2.2.2.2.1,
    h.2.2.2.2.2.2.1, h.2.2.2.2.2.2.2⟩

/-- Claim C2: contrary to the claim, a standard-plot render in which **every**
trace's calculator fails does abort the whole plot: each failure is caught and
the trace skipped, but then line 125 of `src/plot_engine.py` evaluates
`self.plot_config.get('ylabel', ylabel)` whose default argument `ylabel` — a
local only assigned after a successful calculator call — was never bound, so
`_plot_standard` raises `UnboundLocalError`.  Here the single trace requests
`S21` from a 1-port file, so its calculator fails, and the render fails too. -/
theorem C2_all_failing_traces_abort_render :
    get_magnitude_db tfOne "S21" = .error (.valueError "S21 not available in one.s1p") ∧
    PlotEngine.plot defaultConfig "Magnitude (dB)" [⟨tfOne, "S21", "bad", none⟩]
      = .error .unboundLocalError :=
  ⟨rfl, rfl⟩

/-- Claim C3: contrary to the claim, a Smith-chart render attaches **no**
constant-resistance or constant-reactance reference circles to the chart:
`_draw_smith_grid` constructs the resistance-circle objects (five of them, the
`r = 0` entry being skipped) into a discarded local and never calls
`add_patch`, and computes the reactance parameters without creating any
artist.  After rendering one valid trace the figure holds the three trace
plot calls (curve plus two end markers) and an empty patch list. -/
theorem C3_smith_grid_circles_never_added :
    (PlotEngine.plot defaultConfig "Smith Chart" [⟨tfOne, "S11", "S11", none⟩]).map
        (fun fig => fig.patches) = .ok [] ∧
    (PlotEngine.plot defaultConfig "Smith Chart" [⟨tfOne, "S11", "S11", none⟩]).map
        (fun fig => fig.curves.length) = .ok 3 ∧
    smithResistanceCircleParams.length = 5 := by
  refine ⟨rfl, rfl, ?_⟩
  norm_num [smithResistanceCircleParams, List.filterMap_cons]

/-- Claim C7: the parameter listing of a loaded `P`-port network is exactly
the row-major sequence `S{i}{j}`, `i` (output port) varying slower than `j`;
for a 2-port network it is exactly `["S11", "S12", "S21", "S22"]`. -/
theorem C7_parameter_listing (tf : TouchstoneFile) :
    tf.s_params = (List.range tf.nports).flatMap
        (fun i => (List.range tf.nports).map (fun j => paramName (i + 1) (j + 1))) ∧
    (tf.nports = 2 → tf.s_params = ["S11", "S12", "S21", "S22"]) := by
  refine ⟨by rw [tf.h_params, load_file_s_params_eq], fun h2 => ?_⟩
  rw [tf.h_params, h2]
  decide

/-- Witness for claim C7 at a concrete 2-port file. -/
theorem C7_witness : tfTwo.s_params = ["S11", "S12", "S21", "S22"] :=
  (C7_parameter_listing tfTwo).2 rfl

/-- Claim C6: requesting a parameter whose (single-digit) port indices exceed
the network's port count fails with the spec's `UnknownParameterError` (the
source's `ValueError` carrying the "not available" message); the pure request
leaves the file untouched.  The identifier-based membership check can only
admit indices up to the port count. -/
theorem C6_out_of_range_parameter_fails (tf : TouchstoneFile) (i j : ℕ)
    (hi1 : 1 ≤ i) (hi9 : i ≤ 9) (hj1 : 1 ≤ j) (hj9 : j ≤ 9)
    (hbig : tf.nports < i ∨ tf.nports < j) :
    get_s_parameter tf (paramName i j) =
      .error (.valueError (paramName i j ++ " not available in " ++ tf.filename)) := by
  have hP : tf.nports < 9 := by omega
  have hnot : paramName i j ∉ tf.s_params := by
    rw [tf.h_params]
    exact paramName_not_mem tf.nports hP i (by omega) j (by omega) hbig
  unfold get_s_parameter
  rw [if_neg hnot]

/-- Witness for claim C6: `S33` on a concrete 2-port network. -/
theorem C6_witness :
    (1 ≤ 3 ∧ (3 : ℕ) ≤ 9 ∧ (tfTwo.nports < 3 ∨ tfTwo.nports < 3)) ∧
    get_s_parameter tfTwo "S33" =
      .error (.valueError "S33 not available in two.s2p") :=
  ⟨⟨by norm_num, by norm_num, Or.inl (by decide)⟩,
   C6_out_of_range_parameter_fails tfTwo 3 3 (by norm_num) (by norm_num)
     (by norm_num) (by norm_num) (Or.inl (by decide))⟩

set_option maxRecDepth 40000 in
/-- Claim C10, counterexample: on a 10-port network the generated identifier
`"S101"` (that is, `S₁₀,₁`) passes the membership check of
`get_s_parameter`, yet the digit parsed from position 2 yields the column
index `int('0') - 1 = -1`, which is **not** within `[0, P-1]` — the claim's
"indices always within `[0, P-1]`" fails as soon as the port count has two
digits. -/
theorem C10_counterexample :
    "S101" ∈ tfTen.s_params ∧ colIdx "S101" = -1 ∧ ¬(0 ≤ colIdx "S101") :=
  ⟨by decide, by decide, by decide⟩

/-- Claim C10 (amended): for every network with at most 9 ports — the regime
the single-digit identifier format supports — every identifier accepted by the
membership check parses to row and column indices within `[0, P-1]`, and the
subsequent indexing into the `(N, P, P)` sample array always succeeds: the
`IndexError` branch is unreachable. -/
theorem C10_amended_single_digit_indices_in_bounds (tf : TouchstoneFile)
    (h9 : tf.nports ≤ 9) (p : String) (hp : p ∈ tf.s_params) :
    (0 ≤ rowIdx p ∧ rowIdx p < (tf.nports : ℤ)) ∧
    (0 ≤ colIdx p ∧ colIdx p < (tf.nports : ℤ)) ∧
    ∃ sdata, get_s_parameter tf p = .ok (tf.freq, sdata) := by
  rw [tf.h_params, mem_load_file_s_params] at hp
  obtain ⟨i, hi, j, hj, rfl⟩ := hp
  obtain ⟨hrow, hcol⟩ := rowIdx_colIdx_paramName (i + 1) (by omega) (j + 1) (by omega)
  have hrowv : rowIdx (paramName (i + 1) (j + 1)) = (i : ℤ) := by rw [hrow]; push_cast; ring
  have hcolv : colIdx (paramName (i + 1) (j + 1)) = (j : ℤ) := by rw [hcol]; push_cast; ring
  have hbounds : (0 ≤ (i : ℤ) ∧ (i : ℤ) < (tf.nports : ℤ)) ∧
      (0 ≤ (j : ℤ) ∧ (j : ℤ) < (tf.nports : ℤ)) := by
    constructor <;> constructor <;> [positivity; exact_mod_cast hi; positivity; exact_mod_cast hj]
  refine ⟨by rw [hrowv]; exact hbounds.1, by rw [hcolv]; exact hbounds.2, ?_⟩
  obtain ⟨r, hr⟩ := extractColumn_total (rowIdx (paramName (i + 1) (j + 1)))
    (colIdx (paramName (i + 1) (j + 1)))
    (by rw [hrowv]; exact hbounds.1.1) (by rw [hrowv]; exact hbounds.1.2)
    (by rw [hcolv]; exact hbounds.2.1) (by rw [hcolv]; exact hbounds.2.2)
    tf.s tf.h_shape
  refine ⟨r, ?_⟩
  unfold get_s_parameter
  rw [if_pos (by rw [tf.h_params, mem_load_file_s_params]; exact ⟨i, hi, j, hj, rfl⟩), hr]

/-- Witness for the amended claim C10 at a concrete 2-port file. -/
theorem C10_amended_witness :
    (tfTwo.nports ≤ 9 ∧ "S12" ∈ tfTwo.s_params) ∧
    ((0 ≤ rowIdx "S12" ∧ rowIdx "S12" < (tfTwo.nports : ℤ)) ∧
     (0 ≤ colIdx "S12" ∧ colIdx "S12" < (tfTwo.nports : ℤ)) ∧
     ∃ sdata, get_s_parameter tfTwo "S12" = .ok (tfTwo.freq, sdata)) :=
  ⟨⟨by decide, by decide⟩,
   C10_amended_single_digit_indices_in_bounds tfTwo (by decide) "S12" (by decide)⟩

/-- Claim C5: VSWR is computed elementwise as `(1+Γ)/(1-Γ)` with
`Γ = clip(|v|, 0, 0.9999)`; consequently the value is `1` where `|v| = 0`,
and for any two samples the value is monotonically non-decreasing in `|v|`
over `[0, 0.9999]`. -/
theorem C5_vswr (tf : TouchstoneFile) (p : String) (f vs : List ℝ)
    (h : get_vswr tf p = .ok (f, vs)) :
    (∀ s : List ℂ, get_s_parameter tf p = .ok (f, s) →
      vs = s.map (fun v =>
        (1 + min (max (Complex.abs v) 0) 0.9999)
          / (1 - min (max (Complex.abs v) 0) 0.9999))) ∧
    (∀ v : ℂ, Complex.abs v = 0 → vswrPoint v = 1) ∧
    (∀ v w : ℂ, Complex.abs v ≤ Complex.abs w → Complex.abs w ≤ 0.9999 →
      vswrPoint v ≤ vswrPoint w) := by
  refine ⟨?_, ?_, ?_⟩
  · intro s hs
    rw [get_vswr, hs] at h
    simp only [Except.map] at h
    cases h
    rfl
  · intro v hv
    simp only [vswrPoint, hv]
    norm_num
  · intro v w hvw hw
    have hv0 : 0 ≤ Complex.abs v := Complex.abs.nonneg v
    have hw0 : 0 ≤ Complex.abs w := Complex.abs.nonneg w
    unfold vswrPoint
    rw [max_eq_left hv0, max_eq_left hw0, min_eq_left hw]
    set g1 := min (Complex.abs v) 0.9999 with hg1
    have hga : g1 ≤ Complex.abs w := le_trans (min_le_left _ _) hvw
    have hgb : g1 ≤ 0.9999 := min_le_right _ _
    have h1 : (0 : ℝ) < 1 - g1 := by nlinarith
    have h2 : (0 : ℝ) < 1 - Complex.abs w := by nlinarith
    rw [div_le_div_iff₀ h1 h2]
    nlinarith

/-- Witness for claim C5 at a concrete 1-port file with sample `1`. -/
theorem C5_witness :
    get_vswr tfOne "S11" = .ok ([1e9], [vswrPoint 1]) ∧
    ((∀ s : List ℂ, get_s_parameter tfOne "S11" = .ok ([1e9], s) →
      [vswrPoint 1] = s.map (fun v =>
        (1 + min (max (Complex.abs v) 0) 0.9999)
          / (1 - min (max (Complex.abs v) 0) 0.9999))) ∧
    (∀ v : ℂ, Complex.abs v = 0 → vswrPoint v = 1) ∧
    (∀ v w : ℂ, Complex.abs v ≤ Complex.abs w → Complex.abs w ≤ 0.9999 →
      vswrPoint v ≤ vswrPoint w)) :=
  ⟨rfl, C5_vswr tfOne "S11" [1e9] [vswrPoint 1] rfl⟩

/-- Claim C8: wherever the linear magnitude is nonzero, the dB magnitude is
`20 · log10` of it, elementwise. -/
theorem C8_magnitude_db_vs_linear (tf : TouchstoneFile) (p : String)
    (f g db lin : List ℝ) (k : ℕ)
    (hdb : get_magnitude_db tf p = .ok (f, db))
    (hlin : get_magnitude_linear tf p = .ok (g, lin))
    (hk : k < lin.length) (hnz : lin.getD k 0 ≠ 0) :
    db.getD k 0 = 20 * Real.logb 10 (lin.getD k 0) := by
  cases hsp : get_s_parameter tf p with
  | error e =>
      rw [get_magnitude_db, hsp] at hdb
      simp [Except.map] at hdb
  | ok fs =>
      obtain ⟨f0, s0⟩ := fs
      rw [get_magnitude_db, hsp] at hdb
      rw [get_magnitude_linear, hsp] at hlin
      simp only [Except.map] at hdb hlin
      cases hdb
      cases hlin
      have hk0 : k < s0.length := by
        simpa [magnitude_linear_samples] using hk
      rw [List.getD_eq_getElem?_getD, List.getD_eq_getElem?_getD,
        magnitude_db_samples, magnitude_linear_samples,
        List.getElem?_map, List.getElem?_map, List.getElem?_eq_getElem hk0]
      rfl

/-- Witness for claim C8 at a concrete 1-port file with sample `1`. -/
theorem C8_witness :
    get_magnitude_db tfOne "S11" = .ok ([1e9], [20 * Real.logb 10 (Complex.abs 1)]) ∧
    get_magnitude_linear tfOne "S11" = .ok ([1e9], [Complex.abs (1 : ℂ)]) ∧
    0 < [Complex.abs (1 : ℂ)].length ∧
    [Complex.abs (1 : ℂ)].getD 0 0 ≠ 0 ∧
    [20 * Real.logb 10 (Complex.abs (1 : ℂ))].getD 0 0
      = 20 * Real.logb 10 ([Complex.abs (1 : ℂ)].getD 0 0) :=
  ⟨rfl, rfl, by simp, by simp,
   C8_magnitude_db_vs_linear tfOne "S11" [1e9] [1e9]
     [20 * Real.logb 10 (Complex.abs 1)] [Complex.abs (1 : ℂ)] 0
     rfl rfl (by simp) (by simp)⟩

/-- Claim C4: group delay is the negated numerical derivative of the unwrapped
phase `angle(v)` with respect to `ω = 2π·f`: first-order one-sided differences
at the two boundaries and the (generalised, non-uniform-spacing) three-point
centred stencil at interior points, which for evenly spaced frequencies
reduces in exact arithmetic to `(φ(k+1) - φ(k-1)) / (2h)`; a single-sample
series yields exactly `[0]`, not an error. -/
theorem C4_group_delay (tf : TouchstoneFile) (p : String) (f : List ℝ) (s : List ℂ)
    (h : get_s_parameter tf p = .ok (f, s)) :
    (s.length = 1 → get_group_delay tf p = .ok (f, [0])) ∧
    (∀ gd : List ℝ, get_group_delay tf p = .ok (f, gd) → 2 ≤ s.length →
      gd.length = s.length ∧
      ∀ φ ω : List ℝ, φ = npUnwrap (s.map Complex.arg) →
        ω = f.map (fun x => 2 * π * x) →
        (gd.getD 0 0 = -((φ.getD 1 0 - φ.getD 0 0) / (ω.getD 1 0 - ω.getD 0 0)) ∧
         gd.getD (s.length - 1) 0 =
           -((φ.getD (s.length - 1) 0 - φ.getD (s.length - 2) 0)
             / (ω.getD (s.length - 1) 0 - ω.getD (s.length - 2) 0)) ∧
         ∀ k, 0 < k → k < s.length - 1 →
           gd.getD k 0 =
             -((-(ω.getD (k + 1) 0 - ω.getD k 0)
                 / ((ω.getD k 0 - ω.getD (k - 1) 0)
                     * ((ω.getD k 0 - ω.getD (k - 1) 0) + (ω.getD (k + 1) 0 - ω.getD k 0))))
                   * φ.getD (k - 1) 0
               + (((ω.getD (k + 1) 0 - ω.getD k 0) - (ω.getD k 0 - ω.getD (k - 1) 0))
                   / ((ω.getD k 0 - ω.getD (k - 1) 0) * (ω.getD (k + 1) 0 - ω.getD k 0)))
                   * φ.getD k 0
               + ((ω.getD k 0 - ω.getD (k - 1) 0)
                   / ((ω.getD (k + 1) 0 - ω.getD k 0)
                       * ((ω.getD k 0 - ω.getD (k - 1) 0) + (ω.getD (k + 1) 0 - ω.getD k 0))))
                   * φ.getD (k + 1) 0))) := by
  have hφlen : (npUnwrap (s.map Complex.arg)).length = s.length := by
    rw [npUnwrap_length, List.length_map]
  constructor
  · intro h1
    have hlen1 : (npUnwrap (s.map Complex.arg)).length = 1 := by rw [hφlen, h1]
    obtain ⟨x, hx⟩ := List.length_eq_one.mp hlen1
    rw [get_group_delay, h]
    simp [Except.map, group_delay_samples, hx]
  · intro gd hgd h2
    rw [get_group_delay, h] at hgd
    simp only [Except.map] at hgd
    cases hgd
    have hcond : 1 < (npUnwrap (s.map Complex.arg)).length := by omega
    have hgds : group_delay_samples f s
        = (npGradient (npUnwrap (s.map Complex.arg))
            (f.map (fun x => 2 * π * x))).map (fun y => -y) := by
      simp [group_delay_samples, hcond]
    have hget : ∀ k, k < s.length →
        (group_delay_samples f s).getD k 0
          = -(gradAt (npUnwrap (s.map Complex.arg)) (f.map (fun x => 2 * π * x)) k) := by
      intro k hk
      rw [hgds, List.getD_eq_getElem?_getD, List.getElem?_map, npGradient,
        List.getElem?_map, List.getElem?_range (by rw [hφlen]; exact hk)]
      rfl
    refine ⟨by rw [hgds]; simp [npGradient_length, hφlen], ?_⟩
    intro φ ω hφ hω
    subst hφ hω
    refine ⟨?_, ?_, ?_⟩
    · rw [hget 0 (by omega), gradAt]
      simp
    · rw [hget (s.length - 1) (by omega), gradAt,
        if_neg (by omega), if_pos (by rw [hφlen])]
      have he : s.length - 1 - 1 = s.length - 2 := by omega
      rw [he]
    · intro k hk0 hk1
      rw [hget k (by omega), gradAt, if_neg (by omega),
        if_neg (by rw [hφlen]; omega)]

/-- Witness for claim C4: the single-sample series of `tfOne` yields exactly
`[0]`, and on the three-sample file `tfThree` the multi-sample branch applies
and produces a series of matching length. -/
theorem C4_witness :
    get_s_parameter tfOne "S11" = .ok ([1e9], [1]) ∧
    get_group_delay tfOne "S11" = .ok ([1e9], [0]) ∧
    get_s_parameter tfThree "S11" = .ok ([1, 2, 4], [1, 1, 1]) ∧
    (group_delay_samples [1, 2, 4] [1, 1, 1]).length = 3 := by
  refine ⟨rfl, (C4_group_delay tfOne "S11" [1e9] [1] rfl).1 rfl, rfl, ?_⟩
  have hlen := ((C4_group_delay tfThree "S11" [1, 2, 4] [1, 1, 1] rfl).2
    (group_delay_samples [1, 2, 4] [1, 1, 1]) rfl (by norm_num)).1
  simpa using hlen
